import Mathlib

/-!
Shallow embedding of `src/publishers.py` (class `BasePublisher`) from the
pika_client repository, together with theorems settling the spec claims.

The Python source is single-threaded event-loop code; each method is
embedded as a pure function from the object state (and the method's
arguments) to a record of its observable effects: log lines emitted,
frames sent on the channel, the exception raised (if any), the Python
return value, and the successor object state.
-/

namespace PikaClient

/-- JSON values: the structured application messages that
`json.dumps(message, ensure_ascii=False)` serializes in `publish_message`. -/
inductive Json where
  | null
  | bool (b : Bool)
  | num (n : Int)
  | str (s : String)
  | arr (elems : List Json)
  | obj (fields : List (String × Json))
deriving Repr

/-- Escaping of one character inside a JSON string literal
(`ensure_ascii=False`: non-ASCII characters pass through unescaped). -/
def jsonEscapeChar (c : Char) : String :=
  if c = '\\' then "\\\\"
  else if c = '"' then "\\\""
  else if c = '\n' then "\\n"
  else if c = '\t' then "\\t"
  else if c = '\r' then "\\r"
  else String.singleton c

/-- Escaping of a JSON string literal body. -/
def jsonEscape (s : String) : String :=
  String.join (s.data.map jsonEscapeChar)

mutual

/-- `json.dumps(·, ensure_ascii=False)`: the UTF-8 textual JSON encoding
used as the message payload by `publish_message`. -/
def Json.dumps : Json → String
  | .null => "null"
  | .bool b => cond b "true" "false"
  | .num n => toString n
  | .str s => "\"" ++ jsonEscape s ++ "\""
  | .arr elems => "[" ++ String.intercalate ", " (Json.dumpsList elems) ++ "]"
  | .obj fields => "\x7b" ++ String.intercalate ", " (Json.dumpsFields fields) ++ "\x7d"

/-- Serialization of the elements of a JSON array. -/
def Json.dumpsList : List Json → List String
  | [] => []
  | x :: xs => Json.dumps x :: Json.dumpsList xs

/-- Serialization of the key/value fields of a JSON object. -/
def Json.dumpsFields : List (String × Json) → List String
  | [] => []
  | (k, v) :: xs => ("\"" ++ jsonEscape k ++ "\": " ++ Json.dumps v) :: Json.dumpsFields xs

end

/-- Python `str.split(sep)` on a single-character separator, accumulator form:
splits the remaining characters, `acc` holding the current piece reversed. -/
def pySplitAux (sep : Char) : List Char → List Char → List (List Char)
  | [], acc => [acc.reverse]
  | c :: cs, acc =>
    if c = sep then acc.reverse :: pySplitAux sep cs []
    else pySplitAux sep cs (c :: acc)

/-- Python `s.split(sep)` for a one-character separator: `"a.b".split('.') = ["a", "b"]`,
`"ab".split('.') = ["ab"]`. -/
def pySplit (s : String) (sep : Char) : List String :=
  (pySplitAux sep s.data []).map String.mk

/-- Python `str.lower()` on one character (ASCII range, which is all the
source feeds it: AMQP method names such as "Basic.Ack"). -/
def pyLowerChar (c : Char) : Char :=
  if 'A' ≤ c ∧ c ≤ 'Z' then Char.ofNat (c.toNat + 32) else c

/-- Python `s.lower()`. -/
def pyLower (s : String) : String :=
  String.mk (s.data.map pyLowerChar)

/-- A pika channel, as observed by `publish_message`: only its `is_open`
flag is consulted by the source. -/
structure Channel where
  is_open : Bool
deriving Repr, DecidableEq

/-- Modelled from the spec: the Connector class (`mill_common.base.Connector`)
is not under src/; this structure records the attribute surface of it that
`BasePublisher` reads and writes — the current `channel`, the `_closing`
flag, and the immutable topology descriptor (`APP_ID`, `EXCHANGE`,
`ROUTING_KEY`, exchange type, queue, routing key, reconnect interval)
supplied at construction (spec §3, §9). -/
structure Connector where
  amqp_url : String
  APP_ID : String
  EXCHANGE : String
  ROUTING_KEY : String
  exchange_type : String
  queue : Option String
  reconnect_interval : Option Nat
  channel : Option Channel
  _closing : Bool
deriving Repr, DecidableEq

/-- The `BasePublisher` object state: the attributes assigned by
`__init__` (`self.amqp_url` and `self.connector`). The source assigns no
other instance attribute; in particular it keeps no outstanding-delivery
table, although its docstrings describe one. -/
structure BasePublisher where
  amqp_url : String
  connector : Connector
deriving Repr, DecidableEq

/-- The bound methods of `BasePublisher` that the source passes around as
callbacks. -/
inductive PublisherMethod where
  | start
  | on_delivery_confirmation
deriving Repr, DecidableEq

/-- Observable calls made by `BasePublisher` on its collaborators
(the Connector, the channel, and the `CallbackMixin` registry), in
program order. -/
inductive TraceEv where
  | log (msg : String)
  | register_callback (event : String) (listener : PublisherMethod)
  | confirm_delivery (handler : PublisherMethod)
  | process_callbacks (event : String)
  | set_closing
  | close_channel
  | close_connection
deriving Repr, DecidableEq

/-- `BasePublisher.__init__`: builds the Connector from the constructor
arguments and registers `self.start` for the Connector's `on_bindok`
event. Returns the constructed object and the trace of collaborator
calls. A fresh Connector has no channel yet and is not closing. -/
def BasePublisher.init (amqp_url app_id exchange exchange_type : String)
    (queue : Option String) (routing_key : String)
    (reconnect_interval : Option Nat) : BasePublisher × List TraceEv :=
  let connector : Connector :=
    { amqp_url := amqp_url
      APP_ID := app_id
      EXCHANGE := exchange
      ROUTING_KEY := routing_key
      exchange_type := exchange_type
      queue := queue
      reconnect_interval := reconnect_interval
      channel := none
      _closing := false }
  ({ amqp_url := amqp_url, connector := connector },
   [.register_callback "on_bindok" .start])

/-- `BasePublisher.enable_delivery_confirmations`: logs and issues
`confirm_delivery` on the Connector's channel with
`on_delivery_confirmation` as the handler. -/
def BasePublisher.enable_delivery_confirmations (_self : BasePublisher) :
    List TraceEv :=
  [.log "Issuing Confirm.Select RPC command",
   .confirm_delivery .on_delivery_confirmation]

/-- `BasePublisher.start`: enables delivery confirmations, then fires the
registered higher-level start callbacks, in that order. -/
def BasePublisher.start (self : BasePublisher) : List TraceEv :=
  self.enable_delivery_confirmations ++ [.process_callbacks "start"]

/-- `BasePublisher.stop`: sets `self.connector._closing = True`, then
closes the channel, then the connection. Returns the successor state and
the trace of collaborator calls in program order. -/
def BasePublisher.stop (self : BasePublisher) : BasePublisher × List TraceEv :=
  ({ self with connector := { self.connector with _closing := true } },
   [.log "Stopping.", .set_closing, .close_channel, .close_connection,
    .log "Stopped."])

/-- `pika.BasicProperties` as constructed by `publish_message`. -/
structure BasicProperties where
  app_id : String
  content_type : String
  headers : List (String × String)
deriving Repr, DecidableEq

/-- One `channel.basic_publish(exchange, routing_key, body, properties)`
call. -/
structure PublishCall where
  exchange : String
  routing_key : String
  body : String
  properties : BasicProperties
deriving Repr, DecidableEq

/-- Observable effects of one `publish_message` call. `raised = none`
means the method returned normally; `ret` is the Python return value
(`none` standing for Python's `None`). -/
structure PublishEffects where
  logs : List String
  sends : List PublishCall
  raised : Option String
  ret : Option String
  state' : BasePublisher
deriving Repr, DecidableEq

/-- `BasePublisher.publish_message`: if the channel is missing or closed,
logs an error and returns without sending; otherwise builds
`BasicProperties(app_id, content_type='application/json', headers={})`
and publishes the JSON serialization of the message on the channel.
Neither branch assigns any attribute, so `state'` is the input state.
(The success-branch log abstracts Python's `%s` formatting of the
message by its JSON serialization.) -/
def BasePublisher.publish_message (self : BasePublisher) (message : Json) :
    PublishEffects :=
  match self.connector.channel with
  | none =>
    { logs := ["Cannot publish the message. Channel unavailable or closed."]
      sends := []
      raised := none
      ret := none
      state' := self }
  | some channel =>
    if !channel.is_open then
      { logs := ["Cannot publish the message. Channel unavailable or closed."]
        sends := []
        raised := none
        ret := none
        state' := self }
    else
      let headers : List (String × String) := []
      let properties : BasicProperties :=
        { app_id := self.connector.APP_ID
          content_type := "application/json"
          headers := headers }
      { logs := ["Published message # " ++ Json.dumps message]
        sends := [{ exchange := self.connector.EXCHANGE
                    routing_key := self.connector.ROUTING_KEY
                    body := Json.dumps message
                    properties := properties }]
        raised := none
        ret := none
        state' := self }

/-- A `Basic.Ack` / `Basic.Nack` method as read by
`on_delivery_confirmation`: its `NAME`, `delivery_tag`, and the
`multiple` flag (present on the pika frame; never read by the source). -/
structure Method where
  NAME : String
  delivery_tag : Nat
  multiple : Bool
deriving Repr, DecidableEq

/-- A pika method frame wrapping a method. -/
structure MethodFrame where
  method : Method
deriving Repr, DecidableEq

/-- Observable effects of one `on_delivery_confirmation` call. -/
structure ConfirmEffects where
  logs : List String
  raised : Option String
  state' : BasePublisher
deriving Repr, DecidableEq

/-- `BasePublisher.on_delivery_confirmation`: takes the second
dot-component of the method NAME, lowercased; logs it; on `ack` only
logs, on `nack` raises `NotImplementedError`, on anything else falls
through. No branch assigns any attribute. When NAME contains no dot,
Python's `split('.')[1]` raises `IndexError`. -/
def BasePublisher.on_delivery_confirmation (self : BasePublisher)
    (method_frame : MethodFrame) : ConfirmEffects :=
  match (pySplit method_frame.method.NAME '.').get? 1 with
  | none =>
    { logs := [], raised := some "IndexError", state' := self }
  | some piece =>
    let confirmation_type := pyLower piece
    let received_log :=
      "Received " ++ confirmation_type ++ " for delivery tag: " ++
        toString method_frame.method.delivery_tag
    if confirmation_type = "ack" then
      { logs := [received_log,
                 "Acknowledged message " ++
                   toString method_frame.method.delivery_tag ++ "."]
        raised := none
        state' := self }
    else if confirmation_type = "nack" then
      { logs := [received_log]
        raised := some "NotImplementedError"
        state' := self }
    else
      { logs := [received_log]
        raised := none
        state' := self }

/-- A connector in the `Ready` state of spec §8's scenario: topology
`orders` / `topic` / `orders.q` / `orders.new`, channel open. -/
def readyConnector : Connector :=
  { amqp_url := "amqp://localhost"
    APP_ID := "app"
    EXCHANGE := "orders"
    ROUTING_KEY := "orders.new"
    exchange_type := "topic"
    queue := some "orders.q"
    reconnect_interval := none
    channel := some { is_open := true }
    _closing := false }

/-- A publisher whose channel is ready. -/
def readyPublisher : BasePublisher :=
  { amqp_url := "amqp://localhost", connector := readyConnector }

/-- The message `{"id": 1}` of spec §8's scenario. -/
def msgId1 : Json := .obj [("id", .num 1)]

/-- A `Basic.Ack` frame for delivery tag 1, `multiple` not set. -/
def ackFrame1 : MethodFrame :=
  { method := { NAME := "Basic.Ack", delivery_tag := 1, multiple := false } }

/-- A `Basic.Nack` frame for delivery tag 1. -/
def nackFrame1 : MethodFrame :=
  { method := { NAME := "Basic.Nack", delivery_tag := 1, multiple := false } }

/-- A `Basic.Ack` frame for delivery tag 1 with the `multiple` flag set. -/
def ackFrame1multi : MethodFrame :=
  { method := { NAME := "Basic.Ack", delivery_tag := 1, multiple := true } }

/-- A `Basic.Return` frame: its second dot-component lowercases to
`return`, which is neither `ack` nor `nack`. -/
def returnFrame : MethodFrame :=
  { method := { NAME := "Basic.Return", delivery_tag := 1, multiple := false } }

/-- A publisher whose connector has no channel (e.g. before the first
connect or during a reconnect window). -/
def noChannelPublisher : BasePublisher :=
  { amqp_url := "amqp://localhost"
    connector := { readyConnector with channel := none } }

example : pySplit "Basic.Ack" '.' = ["Basic", "Ack"] := by decide
example : pyLower "Nack" = "nack" := by decide
example : Json.dumps msgId1 = "\x7b\"id\": 1\x7d" := by
  simp only [msgId1, Json.dumps, Json.dumpsFields, jsonEscape]
  decide

/-- C1: the spec requires every successful `publish_message` call to
record exactly one outstanding-delivery entry. The code violates this:
on the ready publisher the call sends the frame (one `basic_publish`)
but leaves the entire object state unchanged — no attribute of the
publisher or its connector records the delivery, and no
outstanding-delivery table exists at all, contradicting the method's own
docstring ("appending a list of deliveries with the message number that
was sent"). -/
theorem C1_successful_publish_records_no_outstanding_entry :
    (readyPublisher.publish_message msgId1).sends.length = 1 ∧
    (readyPublisher.publish_message msgId1).state' = readyPublisher :=
  ⟨rfl, rfl⟩

/-- C2: the spec requires a rejection (nack) confirmation to remove the
matching outstanding entry and enter a well-defined recovery path, never
terminating in an unimplemented condition. The code violates this: on a
`Basic.Nack` frame `on_delivery_confirmation` raises
`NotImplementedError` (marked `TODO: retry logic` in the source) and
changes no state. -/
theorem C2_nack_raises_unimplemented :
    (readyPublisher.on_delivery_confirmation nackFrame1).raised =
      some "NotImplementedError" ∧
    (readyPublisher.on_delivery_confirmation nackFrame1).state' =
      readyPublisher :=
  ⟨rfl, rfl⟩

/-- C3: the spec requires an acknowledgement to remove exactly the
matching outstanding entry (or the whole range up to the tag when
`multiple` is set). The code violates this: on a `Basic.Ack` frame it
only logs — the object state is unchanged, nothing is removed (there is
no outstanding-delivery table), and the result is identical whether or
not the `multiple` flag is set, because the flag is never read. -/
theorem C3_ack_removes_no_entry_and_ignores_multiple :
    (readyPublisher.on_delivery_confirmation ackFrame1).state' =
      readyPublisher ∧
    (readyPublisher.on_delivery_confirmation ackFrame1).raised = none ∧
    readyPublisher.on_delivery_confirmation ackFrame1multi =
      readyPublisher.on_delivery_confirmation ackFrame1 :=
  ⟨rfl, rfl, rfl⟩

/-- C4: whenever the connector has no channel, or the channel is not
open, `publish_message` performs no send, raises nothing (the condition
is not fatal), and reports the channel-unavailable condition via its
error log. -/
theorem C4_channel_unavailable_no_send_not_fatal :
    ∀ (self : BasePublisher) (message : Json),
      (self.connector.channel = none ∨
        ∃ ch, self.connector.channel = some ch ∧ ch.is_open = false) →
      (self.publish_message message).sends = [] ∧
      (self.publish_message message).raised = none ∧
      (self.publish_message message).logs =
        ["Cannot publish the message. Channel unavailable or closed."] := by
  intro self message h
  rcases h with h | ⟨ch, h, hopen⟩
  · simp [BasePublisher.publish_message, h]
  · simp [BasePublisher.publish_message, h, hopen]

/-- Witness for C4 at a concrete publisher with no channel. -/
theorem C4_channel_unavailable_no_send_not_fatal_witness :
    (noChannelPublisher.publish_message msgId1).sends = [] ∧
    (noChannelPublisher.publish_message msgId1).raised = none ∧
    (noChannelPublisher.publish_message msgId1).logs =
      ["Cannot publish the message. Channel unavailable or closed."] :=
  C4_channel_unavailable_no_send_not_fatal noChannelPublisher msgId1
    (Or.inl rfl)

/-- C5: `__init__` registers the publisher's `start` method as the
listener for the connector's `on_bindok` (topology-ready) event, and the
trace of `start` places the `confirm_delivery` call (confirmation mode,
with `on_delivery_confirmation` as handler) strictly before the firing
of the higher-level `start` callbacks. -/
theorem C5_init_registers_start_and_start_confirms_before_callbacks :
    (∀ amqp_url app_id exchange exchange_type queue routing_key
        reconnect_interval,
      (BasePublisher.init amqp_url app_id exchange exchange_type queue
          routing_key reconnect_interval).2 =
        [TraceEv.register_callback "on_bindok" PublisherMethod.start]) ∧
    (∀ self : BasePublisher,
      self.start =
        [TraceEv.log "Issuing Confirm.Select RPC command",
         TraceEv.confirm_delivery PublisherMethod.on_delivery_confirmation,
         TraceEv.process_callbacks "start"]) :=
  ⟨fun _ _ _ _ _ _ _ => rfl, fun _ => rfl⟩

/-- C6: `stop` marks the connector as closing and then closes the
channel before the connection, in that order, and the successor state
has `_closing = true`. -/
theorem C6_stop_sets_closing_then_channel_then_connection :
    ∀ self : BasePublisher,
      (self.stop).2 =
        [TraceEv.log "Stopping.", TraceEv.set_closing,
         TraceEv.close_channel, TraceEv.close_connection,
         TraceEv.log "Stopped."] ∧
      (self.stop).1.connector._closing = true :=
  fun _ => ⟨rfl, rfl⟩

/-- C7: whenever the channel exists and is open, `publish_message` sends
exactly one frame carrying the UTF-8 JSON serialization of the message
as body, on the connector's exchange and routing key, with properties
holding the connector's `APP_ID`, the content type
`application/json`, and a (here empty) header mapping. -/
theorem C7_publish_sends_json_with_properties :
    ∀ (self : BasePublisher) (message : Json) (ch : Channel),
      self.connector.channel = some ch →
      ch.is_open = true →
      (self.publish_message message).sends =
        [{ exchange := self.connector.EXCHANGE
           routing_key := self.connector.ROUTING_KEY
           body := Json.dumps message
           properties := { app_id := self.connector.APP_ID
                           content_type := "application/json"
                           headers := [] } }] := by
  intro self message ch h hopen
  simp [BasePublisher.publish_message, h, hopen]

/-- Witness for C7 at the ready publisher and the message of the spec's
scenario. -/
theorem C7_publish_sends_json_with_properties_witness :
    (readyPublisher.publish_message msgId1).sends =
      [{ exchange := readyPublisher.connector.EXCHANGE
         routing_key := readyPublisher.connector.ROUTING_KEY
         body := Json.dumps msgId1
         properties := { app_id := readyPublisher.connector.APP_ID
                         content_type := "application/json"
                         headers := [] } }] :=
  C7_publish_sends_json_with_properties readyPublisher msgId1
    { is_open := true } rfl rfl

/-- C8: for a confirmation frame whose method NAME has a second
dot-component that lowercases to neither `ack` nor `nack`,
`on_delivery_confirmation` returns normally (raises nothing) and leaves
the state unchanged: unrecognized confirmation types are silently
ignored. -/
theorem C8_unknown_confirmation_type_silently_ignored :
    ∀ (self : BasePublisher) (method_frame : MethodFrame) (piece : String),
      (pySplit method_frame.method.NAME '.').get? 1 = some piece →
      pyLower piece ≠ "ack" →
      pyLower piece ≠ "nack" →
      (self.on_delivery_confirmation method_frame).raised = none ∧
      (self.on_delivery_confirmation method_frame).state' = self := by
  intro self method_frame piece h hack hnack
  rw [List.get?_eq_getElem?] at h
  simp [BasePublisher.on_delivery_confirmation, h, hack, hnack]

/-- Witness for C8 at a `Basic.Return` frame. -/
theorem C8_unknown_confirmation_type_silently_ignored_witness :
    (readyPublisher.on_delivery_confirmation returnFrame).raised = none ∧
    (readyPublisher.on_delivery_confirmation returnFrame).state' =
      readyPublisher :=
  C8_unknown_confirmation_type_silently_ignored readyPublisher returnFrame
    "Return" (by decide) (by decide) (by decide)

/-- C9: every frame `publish_message` ever sends carries an empty
headers mapping — the method takes only the message, so the public
interface offers no way to attach headers. -/
theorem C9_published_headers_always_empty :
    ∀ (self : BasePublisher) (message : Json),
      ((self.publish_message message).sends.all
        fun c => c.properties.headers.isEmpty) = true := by
  intro self message
  unfold BasePublisher.publish_message
  cases self.connector.channel with
  | none => rfl
  | some ch =>
    cases ch with
    | mk b => cases b <;> rfl

/-- C10: `publish_message` returns Python `None` in both the success and
the channel-unavailable branch and mutates no attribute of the publisher
or its connector, so the caller cannot distinguish the two outcomes via
the return value and no publisher-side state records the send. -/
theorem C10_publish_returns_none_and_mutates_nothing :
    ∀ (self : BasePublisher) (message : Json),
      (self.publish_message message).ret = none ∧
      (self.publish_message message).state' = self := by
  intro self message
  unfold BasePublisher.publish_message
  cases self.connector.channel with
  | none => exact ⟨rfl, rfl⟩
  | some ch =>
    cases ch with
    | mk b => cases b <;> exact ⟨rfl, rfl⟩

end PikaClient
